import Mathlib

/-!
Verification of `figure_to_latex.py` and `docs/examples/generate_example_plots.py`.

Numbers that the Python code handles as floats are modelled exactly as
rationals (`ℚ`).  Python exceptions (`raise ValueError`, a failing `assert`,
`ZeroDivisionError`) are modelled with `Except`/`Option` results.  Calls into
matplotlib / the filesystem are modelled as fields of an explicit state record
that the embedded functions thread through; only the parameters of
`export_latex` that influence this modelled state appear as arguments (the
omitted ones — `dpi`, `bbox_inches`, the four per-call font overrides and
`debug` — only change rcParams temporarily or are forwarded verbatim to
`savefig`/`print`, and no modelled effect depends on them).
-/

/-- Value of the `side_margin` setting: Python `float` or `(left, right)` tuple. -/
inductive SideMargin where
  | uniform (v : ℚ)
  | pair (l r : ℚ)
deriving DecidableEq, Repr

/-- The `_DEFAULTS` dictionary of `figure_to_latex.py` (its keys, with their value types). -/
structure Defaults where
  engine : String
  family : String
  serif : List String
  base_font_pt : ℤ
  axes_label_pt : Option ℤ
  tick_font_pt : ℤ
  legend_font_pt : ℤ
  use_tex : Bool
  use_mathtext_for_ticks : Bool
  preamble : String
  side_margin : Option SideMargin
deriving DecidableEq, Repr

/-- The matplotlib rcParams keys that `_apply_rc` writes. -/
structure RcParams where
  text_usetex : Bool
  font_family : String
  font_serif : List String
  font_size : ℤ
  axes_labelsize : ℤ
  legend_fontsize : ℤ
  xtick_labelsize : ℤ
  ytick_labelsize : ℤ
  axes_formatter_use_mathtext : Bool
  pgf_texsystem : String
  pgf_rcfonts : Bool
  pgf_preamble : String
deriving DecidableEq, Repr

/-- `_apply_rc`: build the rcParams update from `_DEFAULTS`.  The Python call
`mpl.rcParams.update({...})` assigns exactly the keys modelled by `RcParams`,
so the result is fully determined by the defaults dictionary. -/
def _apply_rc (d : Defaults) : RcParams :=
  { text_usetex := d.use_tex
    font_family := d.family
    font_serif := d.serif
    font_size := d.base_font_pt
    axes_labelsize :=
      match d.axes_label_pt with
      | some v => v
      | none => d.base_font_pt
    legend_fontsize := d.legend_font_pt
    xtick_labelsize := d.tick_font_pt
    ytick_labelsize := d.tick_font_pt
    axes_formatter_use_mathtext := d.use_mathtext_for_ticks
    pgf_texsystem := d.engine
    pgf_rcfonts := false
    pgf_preamble := d.preamble }

/-- Module-level mutable state: the global `TEXTWIDTH_PT`, the `_DEFAULTS`
dictionary, and the matplotlib rcParams written by `_apply_rc`. -/
structure GlobalState where
  textwidth_pt : ℚ
  defaults : Defaults
  rc : RcParams
deriving DecidableEq, Repr

/-- The literal `_DEFAULTS` dictionary at module import. -/
def initial_defaults : Defaults :=
  { engine := "pdflatex"
    family := "serif"
    serif := ["Computer Modern"]
    base_font_pt := 11
    axes_label_pt := none
    tick_font_pt := 10
    legend_font_pt := 10
    use_tex := true
    use_mathtext_for_ticks := false
    preamble := "\n        \\usepackage{amsmath}\n        \\usepackage{amssymb}\n        \\usepackage{siunitx}\\sisetup{detect-all}\n        \\providecommand\x7b\\mathdefault\x7d[1]\x7b#1\x7d\n    "
    side_margin := none }

/-- Module import: `TEXTWIDTH_PT = 345.0`, the `_DEFAULTS` literal, then `_apply_rc()`. -/
def initial_state : GlobalState :=
  { textwidth_pt := 345
    defaults := initial_defaults
    rc := _apply_rc initial_defaults }

/-- The keyword arguments of `configure_latex` (all optional, default `None`). -/
structure ConfigureArgs where
  textwidth_pt : Option ℚ
  engine : Option String
  base_font_pt : Option ℤ
  axes_label_pt : Option ℤ
  tick_font_pt : Option ℤ
  legend_font_pt : Option ℤ
  family : Option String
  serif : Option (List String)
  preamble : Option String
  use_tex : Option Bool
  use_mathtext_for_ticks : Option Bool
  side_margin : Option SideMargin
deriving DecidableEq, Repr

/-- All-`none` arguments (every keyword left at its `None` default). -/
def ConfigureArgs.noneArgs : ConfigureArgs :=
  ⟨none, none, none, none, none, none, none, none, none, none, none, none⟩

/-- `configure_latex`: each `if arg is not None:` assignment touches a distinct
global key, so the sequential updates of the source are rendered as one
per-field merge; `float`/`int`/`bool`/`list` conversions are identities on the
modelled argument types.  Ends with `_apply_rc()`. -/
def configure_latex (a : ConfigureArgs) (g : GlobalState) : GlobalState :=
  let tw : ℚ :=
    match a.textwidth_pt with
    | some v => v
    | none => g.textwidth_pt
  let d : Defaults :=
    { engine := match a.engine with | some v => v | none => g.defaults.engine
      family := match a.family with | some v => v | none => g.defaults.family
      serif := match a.serif with | some v => v | none => g.defaults.serif
      base_font_pt := match a.base_font_pt with | some v => v | none => g.defaults.base_font_pt
      axes_label_pt := match a.axes_label_pt with | some v => some v | none => g.defaults.axes_label_pt
      tick_font_pt := match a.tick_font_pt with | some v => v | none => g.defaults.tick_font_pt
      legend_font_pt := match a.legend_font_pt with | some v => v | none => g.defaults.legend_font_pt
      use_tex := match a.use_tex with | some v => v | none => g.defaults.use_tex
      use_mathtext_for_ticks := match a.use_mathtext_for_ticks with | some v => v | none => g.defaults.use_mathtext_for_ticks
      preamble := match a.preamble with | some v => v | none => g.defaults.preamble
      side_margin := match a.side_margin with | some v => some v | none => g.defaults.side_margin }
  { textwidth_pt := tw, defaults := d, rc := _apply_rc d }

/-- `_pt_to_in`: TeX points to inches (72.27 pt = 1 in). -/
def _pt_to_in (pt : ℚ) : ℚ := pt / (7227 / 100)

/-- `Path.name`: the final path component (part after the last "/"). -/
def path_name (p : String) : String :=
  (p.splitOn "/").getLastD ""

/-- `Path.suffix`: the extension of the final component, i.e. the substring
from the last "." when that dot is neither the first nor the last character
of the component; otherwise the empty string. -/
def path_suffix (nm : String) : String :=
  let cs := nm.toList
  match cs.reverse.findIdx? (fun c => c = '.') with
  | none => ""
  | some j =>
    let i := cs.length - 1 - j
    if 0 < i ∧ i < cs.length - 1 then String.mk (cs.drop i) else ""

/-- `Path.with_suffix`: replace the extension of the final component by
`suffix` (append when there is none).  The `ValueError`s pathlib itself can
raise (empty name, separator in the suffix) are library behaviour outside this
code and are not modelled. -/
def with_suffix (p : String) (suffix : String) : String :=
  let nm := path_name p
  let dir := String.mk (p.toList.take (p.length - nm.length))
  let old := path_suffix nm
  let newName :=
    if old = "" then nm ++ suffix
    else String.mk (nm.toList.take (nm.length - old.length)) ++ suffix
  dir ++ newName

/-- `Path.parent` (as used for `fp.parent.mkdir`): everything before the final
component, `"."` when there is none. -/
def path_parent (p : String) : String :=
  let nm := path_name p
  let dir := p.toList.take (p.length - nm.length)
  if dir = [] then "." else String.mk dir.dropLast

/-- The observable state touched by `export_latex`: the figure's size in
inches (`fig.get_size_inches` / `fig.set_size_inches`), the last
`fig.subplots_adjust(left, right)` call, the number of `fig.canvas.draw`
calls, the files written by `fig.savefig` and the directories passed to
`mkdir(parents=True, exist_ok=True)` in order, and whether `plt.show()` /
`plt.close(fig)` ran. -/
structure ExportState where
  fig_w : ℚ
  fig_h : ℚ
  adjust : Option (ℚ × ℚ)
  draws : ℕ
  saved : List String
  mkdirs : List String
  shown : Bool
  closed : Bool
deriving DecidableEq, Repr

/-- Message of the one `raise ValueError(...)` in `export_latex`. -/
def aspect_error_msg : String :=
  "Figure width is zero; cannot infer aspect ratio. Provide aspect explicitly."

/-- Message modelling the `AssertionError` of `assert first_path is not None`. -/
def assert_error_msg : String := "assert first_path is not None"

/-- Loop body of `_save_all`: for each format, build `fp = base.with_suffix(f".{fmt}")`,
create its parent directory, save the figure there, and remember the first path. -/
def _save_all_go (base : String) (st : ExportState) (first
    : Option String) : List String → ExportState × Option String
  | [] => (st, first)
  | fmt :: rest =>
    let fp := with_suffix base ("." ++ fmt)
    let st1 : ExportState :=
      { st with mkdirs := st.mkdirs ++ [path_parent fp], saved := st.saved ++ [fp] }
    let first1 :=
      match first with
      | none => some fp
      | some f => some f
    _save_all_go base st1 first1 rest

/-- `_save_all`: iterate over `formats`, then `assert first_path is not None`
and return the first saved path. -/
def _save_all (base : String) (formats : List String) (st : ExportState) :
    ExportState × Except String String :=
  match _save_all_go base st none formats with
  | (st1, none) => (st1, Except.error assert_error_msg)
  | (st1, some fp) => (st1, Except.ok fp)

/-- Clamp to [0, 1], as `max(0.0, min(1.0, x))`. -/
def clamp01 (x : ℚ) : ℚ := max 0 (min 1 x)

/-- `export_latex`, threading the modelled figure/filesystem state and the two
module globals it reads (`TEXTWIDTH_PT` and `_DEFAULTS["side_margin"]`).
Returns the updated state together with `Except.ok` of the returned path, or
`Except.error` when the code itself raises (the `ValueError` for an
un-inferable aspect, or the assertion in `_save_all`). -/
def export_latex (textwidth_pt : ℚ) (default_side_margin : Option SideMargin)
    (st : ExportState) (name : String) (fraction : ℚ) (aspect : Option ℚ)
    (show_ : Bool) (formats : List String) (side_margin : Option SideMargin) :
    ExportState × Except String String :=
  let inferred : Except String ℚ :=
    match aspect with
    | some a => Except.ok a
    | none =>
      if st.fig_w ≤ 0 then Except.error aspect_error_msg
      else Except.ok (st.fig_h / st.fig_w)
  match inferred with
  | Except.error e => (st, Except.error e)
  | Except.ok a =>
    let width_in := _pt_to_in textwidth_pt * fraction
    let height_in := width_in * a
    let st1 : ExportState := { st with fig_w := width_in, fig_h := height_in }
    let sm : Option SideMargin :=
      match side_margin with
      | none => default_side_margin
      | some s => some s
    let st2 : ExportState :=
      match sm with
      | none => st1
      | some (SideMargin.uniform v) =>
        { st1 with adjust := some (clamp01 v, 1 - clamp01 v) }
      | some (SideMargin.pair l r) =>
        { st1 with adjust := some (clamp01 l, 1 - clamp01 r) }
    let st3 : ExportState := { st2 with draws := st2.draws + 1 }
    match _save_all name formats st3 with
    | (st4, Except.error e) => (st4, Except.error e)
    | (st4, Except.ok first) =>
      let st5 : ExportState := if show_ then { st4 with shown := true } else st4
      ({ st5 with closed := true }, Except.ok first)

/-- `compute_data` from `generate_example_plots.py`.  The script's `math.sin`
and `math.pi` are external library entities, so they are parameters of the
embedding; everything else follows the source line by line. -/
def compute_data (sin : ℚ → ℚ) (pi : ℚ) (samples : ℕ) : List ℚ × List ℚ :=
  let x_vals := (List.range samples).map (fun (i : ℕ) => (i : ℚ) * (2 * pi) / ((samples : ℚ) - 1))
  let y_vals := x_vals.map (fun x => sin (x ^ 2))
  (x_vals, y_vals)

/-- `map_points` from `generate_example_plots.py`.  Python `min`/`max` on an
empty list raise, and `(x - x_min) / (x_max - x_min)` or
`(y - y_min) / (y_max - y_min)` raise `ZeroDivisionError` on a zero
denominator; those failures are the `none` results. -/
def map_points (xs ys : List ℚ) (width height left right top bottom : ℤ)
    (y_padding : ℚ) : Option (List (ℚ × ℚ)) :=
  match xs.min?, xs.max?, ys.min?, ys.max? with
  | some x_min, some x_max, some y_min0, some y_max0 =>
    let y_span := y_max0 - y_min0
    let y_min := y_min0 - y_span * y_padding
    let y_max := y_max0 + y_span * y_padding
    let plot_w : ℚ := (width : ℚ) - (left : ℚ) - (right : ℚ)
    let plot_h : ℚ := (height : ℚ) - (top : ℚ) - (bottom : ℚ)
    if x_max - x_min = 0 ∨ y_max - y_min = 0 then none
    else
      some ((xs.zip ys).map (fun p =>
        let x_norm := (p.1 - x_min) / (x_max - x_min)
        let y_norm := (p.2 - y_min) / (y_max - y_min)
        ((left : ℚ) + x_norm * plot_w, (height : ℚ) - (bottom : ℚ) - y_norm * plot_h)))
  | _, _, _, _ => none

/-! ### Helper lemmas about `List.min?` / `List.max?` over `ℚ` -/

theorem min?_le_of_mem {l : List ℚ} {m a : ℚ} (hm : l.min? = some m) (ha : a ∈ l) :
    m ≤ a :=
  (List.le_min?_iff (fun _ _ _ => le_min_iff) hm).1 le_rfl a ha

theorem le_max?_of_mem {l : List ℚ} {m a : ℚ} (hm : l.max? = some m) (ha : a ∈ l) :
    a ≤ m :=
  (List.max?_le_iff (fun _ _ _ => max_le_iff) hm).1 le_rfl a ha

theorem mem_of_min?_eq_some {l : List ℚ} {m : ℚ} (hm : l.min? = some m) : m ∈ l :=
  List.min?_mem min_choice hm

theorem mem_of_max?_eq_some {l : List ℚ} {m : ℚ} (hm : l.max? = some m) : m ∈ l :=
  List.max?_mem max_choice hm

theorem min?_isSome_of_ne_nil {l : List ℚ} (h : l ≠ []) : ∃ m, l.min? = some m := by
  cases hm : l.min? with
  | none => exact absurd (List.min?_eq_none_iff.mp hm) h
  | some m => exact ⟨m, rfl⟩

theorem max?_isSome_of_ne_nil {l : List ℚ} (h : l ≠ []) : ∃ m, l.max? = some m := by
  cases hm : l.max? with
  | none => exact absurd (List.max?_eq_none_iff.mp hm) h
  | some m => exact ⟨m, rfl⟩

/-- C6: for every call to `configure_latex`, each global setting whose
corresponding keyword argument is `None` keeps its previous value, and only
the settings whose arguments are non-`None` are changed — covering
`TEXTWIDTH_PT` and every key of `_DEFAULTS`. -/
theorem configure_latex_updates_iff_some (a : ConfigureArgs) (g : GlobalState) :
    ((configure_latex a g).textwidth_pt = a.textwidth_pt.getD g.textwidth_pt) ∧
    ((configure_latex a g).defaults.engine = a.engine.getD g.defaults.engine) ∧
    ((configure_latex a g).defaults.base_font_pt = a.base_font_pt.getD g.defaults.base_font_pt) ∧
    ((configure_latex a g).defaults.axes_label_pt =
      match a.axes_label_pt with
      | some v => some v
      | none => g.defaults.axes_label_pt) ∧
    ((configure_latex a g).defaults.tick_font_pt = a.tick_font_pt.getD g.defaults.tick_font_pt) ∧
    ((configure_latex a g).defaults.legend_font_pt = a.legend_font_pt.getD g.defaults.legend_font_pt) ∧
    ((configure_latex a g).defaults.family = a.family.getD g.defaults.family) ∧
    ((configure_latex a g).defaults.serif = a.serif.getD g.defaults.serif) ∧
    ((configure_latex a g).defaults.preamble = a.preamble.getD g.defaults.preamble) ∧
    ((configure_latex a g).defaults.use_tex = a.use_tex.getD g.defaults.use_tex) ∧
    ((configure_latex a g).defaults.use_mathtext_for_ticks =
      a.use_mathtext_for_ticks.getD g.defaults.use_mathtext_for_ticks) ∧
    ((configure_latex a g).defaults.side_margin =
      match a.side_margin with
      | some v => some v
      | none => g.defaults.side_margin) := by
  refine ⟨?_, ?_, ?_, ?_, ?_, ?_, ?_, ?_, ?_, ?_, ?_, ?_⟩
  · cases h : a.textwidth_pt <;> simp [configure_latex, h]
  · cases h : a.engine <;> simp [configure_latex, h]
  · cases h : a.base_font_pt <;> simp [configure_latex, h]
  · cases h : a.axes_label_pt <;> simp [configure_latex, h]
  · cases h : a.tick_font_pt <;> simp [configure_latex, h]
  · cases h : a.legend_font_pt <;> simp [configure_latex, h]
  · cases h : a.family <;> simp [configure_latex, h]
  · cases h : a.serif <;> simp [configure_latex, h]
  · cases h : a.preamble <;> simp [configure_latex, h]
  · cases h : a.use_tex <;> simp [configure_latex, h]
  · cases h : a.use_mathtext_for_ticks <;> simp [configure_latex, h]
  · cases h : a.side_margin <;> simp [configure_latex, h]

/-- C7: after `_apply_rc` runs — at module import and at the end of every
`configure_latex` call — the rcParams entry `axes.labelsize` equals the
configured `axes_label_pt` when that setting is not `None`, and otherwise
equals the configured `base_font_pt`. -/
theorem apply_rc_axes_labelsize :
    (∀ d : Defaults, (_apply_rc d).axes_labelsize = d.axes_label_pt.getD d.base_font_pt) ∧
    (∀ (a : ConfigureArgs) (g : GlobalState),
      (configure_latex a g).rc.axes_labelsize =
        ((configure_latex a g).defaults.axes_label_pt).getD
          ((configure_latex a g).defaults.base_font_pt)) ∧
    (initial_state.rc.axes_labelsize = initial_defaults.base_font_pt) := by
  have hd : ∀ d : Defaults, (_apply_rc d).axes_labelsize = d.axes_label_pt.getD d.base_font_pt := by
    intro d
    cases h : d.axes_label_pt <;> simp [_apply_rc, h]
  refine ⟨hd, ?_, rfl⟩
  intro a g
  have : (configure_latex a g).rc = _apply_rc (configure_latex a g).defaults := rfl
  rw [this, hd]

/-! ### Helper lemmas about `_save_all` -/

theorem _save_all_go_state (base : String) :
    ∀ (l : List String) (st : ExportState) (first : Option String),
      ((_save_all_go base st first l).1.fig_w = st.fig_w) ∧
      ((_save_all_go base st first l).1.fig_h = st.fig_h) ∧
      ((_save_all_go base st first l).1.adjust = st.adjust) ∧
      ((_save_all_go base st first l).1.draws = st.draws) ∧
      ((_save_all_go base st first l).1.shown = st.shown) ∧
      ((_save_all_go base st first l).1.closed = st.closed) ∧
      ((_save_all_go base st first l).1.saved =
        st.saved ++ l.map (fun fmt => with_suffix base ("." ++ fmt))) ∧
      ((_save_all_go base st first l).1.mkdirs =
        st.mkdirs ++ l.map (fun fmt => path_parent (with_suffix base ("." ++ fmt)))) := by
  intro l
  induction l with
  | nil => intro st first; simp [_save_all_go]
  | cons fmt rest ih =>
    intro st first
    simp only [_save_all_go, List.map_cons]
    refine ⟨(ih _ _).1, (ih _ _).2.1, (ih _ _).2.2.1, (ih _ _).2.2.2.1,
      (ih _ _).2.2.2.2.1, (ih _ _).2.2.2.2.2.1, ?_, ?_⟩
    · rw [(ih _ _).2.2.2.2.2.2.1]
      simp
    · rw [(ih _ _).2.2.2.2.2.2.2]
      simp

theorem _save_all_go_first_some (base f : String) :
    ∀ (l : List String) (st : ExportState),
      (_save_all_go base st (some f) l).2 = some f := by
  intro l
  induction l with
  | nil => intro st; rfl
  | cons fmt rest ih => intro st; simpa [_save_all_go] using ih _

theorem _save_all_snd (base : String) (formats : List String) (st : ExportState) :
    (_save_all base formats st).2 =
      match formats with
      | [] => Except.error assert_error_msg
      | fmt :: _ => Except.ok (with_suffix base ("." ++ fmt)) := by
  cases formats with
  | nil => rfl
  | cons fmt rest =>
    have h2 : (_save_all_go base st none (fmt :: rest)).2 =
        some (with_suffix base ("." ++ fmt)) := by
      simpa [_save_all_go] using _save_all_go_first_some base (with_suffix base ("." ++ fmt)) rest _
    simp only [_save_all]
    rcases hgo : _save_all_go base st none (fmt :: rest) with ⟨st1, first1⟩
    rw [hgo] at h2
    simp only at h2
    subst h2
    rfl

theorem _save_all_fst_state (base : String) (formats : List String) (st : ExportState) :
    ((_save_all base formats st).1.fig_w = st.fig_w) ∧
    ((_save_all base formats st).1.fig_h = st.fig_h) ∧
    ((_save_all base formats st).1.draws = st.draws) ∧
    ((_save_all base formats st).1.saved =
      st.saved ++ formats.map (fun fmt => with_suffix base ("." ++ fmt))) ∧
    ((_save_all base formats st).1.mkdirs =
      st.mkdirs ++ formats.map (fun fmt => path_parent (with_suffix base ("." ++ fmt)))) := by
  have h := _save_all_go_state base formats st none
  have hfst : (_save_all base formats st).1 = (_save_all_go base st none formats).1 := by
    simp only [_save_all]
    rcases hgo : _save_all_go base st none formats with ⟨st1, first1⟩
    cases first1 <;> rfl
  rw [hfst]
  exact ⟨h.1, h.2.1, h.2.2.2.1, h.2.2.2.2.2.2.1, h.2.2.2.2.2.2.2⟩

theorem export_latex_ok_spec (tw fr a : ℚ) (dsm : Option SideMargin) (st : ExportState)
    (name : String) (sh : Bool) (formats : List String) (sm : Option SideMargin)
    (asp : Option ℚ)
    (ha : asp = some a ∨ (asp = none ∧ 0 < st.fig_w ∧ a = st.fig_h / st.fig_w)) :
    ((export_latex tw dsm st name fr asp sh formats sm).1.fig_w = _pt_to_in tw * fr) ∧
    ((export_latex tw dsm st name fr asp sh formats sm).1.fig_h = _pt_to_in tw * fr * a) ∧
    ((export_latex tw dsm st name fr asp sh formats sm).1.draws = st.draws + 1) ∧
    ((export_latex tw dsm st name fr asp sh formats sm).1.saved =
      st.saved ++ formats.map (fun fmt => with_suffix name ("." ++ fmt))) ∧
    ((export_latex tw dsm st name fr asp sh formats sm).1.mkdirs =
      st.mkdirs ++ formats.map (fun fmt => path_parent (with_suffix name ("." ++ fmt)))) ∧
    ((export_latex tw dsm st name fr asp sh formats sm).2 =
      match formats with
      | [] => Except.error assert_error_msg
      | fmt :: _ => Except.ok (with_suffix name ("." ++ fmt))) := by
  have hinf : (match asp with
      | some a0 => Except.ok a0
      | none =>
        if st.fig_w ≤ 0 then Except.error aspect_error_msg
        else Except.ok (st.fig_h / st.fig_w)) = Except.ok a := by
    rcases ha with h | ⟨h1, h2, h3⟩
    · rw [h]
    · rw [h1, if_neg (not_le.mpr h2), h3]
  simp only [export_latex, hinf]
  rcases hsm : (match sm with | none => dsm | some s => some s) with _ | s
  all_goals try cases s
  all_goals rw [hsm]
  all_goals dsimp only
  all_goals split
  all_goals rename_i st4 r heq
  all_goals {
    have hfst : st4 = (_save_all name formats _).1 := (congrArg Prod.fst heq).symm
    have hs2 := (congrArg Prod.snd heq).symm
    dsimp only at hs2
    try cases sh
    all_goals dsimp only
    all_goals rw [hfst, hs2]
    all_goals exact ⟨(_save_all_fst_state name formats _).1,
      (_save_all_fst_state name formats _).2.1,
      (_save_all_fst_state name formats _).2.2.1,
      (_save_all_fst_state name formats _).2.2.2.1,
      (_save_all_fst_state name formats _).2.2.2.2,
      _save_all_snd name formats _⟩
  }

/-- C1 (counterexample): the claim says the width-zero `ValueError` is the
program's only explicit failure and that in every other case no explicit
error is raised.  But with `aspect` explicitly given (`aspect = 1`), a figure
of positive width 2, and an empty `formats` iterable, `export_latex` still
fails at the explicit `assert first_path is not None` in `_save_all`. -/
theorem export_latex_second_failure :
    (export_latex 345 none ⟨2, 3, none, 0, [], [], false, false⟩ "example" 1 (some 1) true
        [] none).2 = Except.error assert_error_msg := by
  rfl

/-- C1 (amended): `export_latex` raises exactly in two cases: the explicit
`ValueError` when `aspect` is `None` and the figure's width is not positive,
and the assertion failure in `_save_all` when `formats` is empty; in every
other case no explicit error is raised by this code. -/
theorem export_latex_error_iff (tw fr : ℚ) (dsm : Option SideMargin) (st : ExportState)
    (name : String) (sh : Bool) (formats : List String) (sm : Option SideMargin)
    (asp : Option ℚ) :
    (∃ e, (export_latex tw dsm st name fr asp sh formats sm).2 = Except.error e) ↔
      ((asp = none ∧ st.fig_w ≤ 0) ∨ formats = []) := by
  rcases hasp : asp with _ | a0
  · by_cases hle : st.fig_w ≤ 0
    · have hrun : (export_latex tw dsm st name fr none sh formats sm).2 =
          Except.error aspect_error_msg := by
        simp only [export_latex]
        rw [if_pos hle]
      simp [hrun, hle]
    · have h := (export_latex_ok_spec tw fr (st.fig_h / st.fig_w) dsm st name sh formats sm
        none (Or.inr ⟨rfl, lt_of_not_le hle, rfl⟩)).2.2.2.2.2
      cases formats with
      | nil => simp [h]
      | cons fmt rest => simp [h, hle]
  · have h := (export_latex_ok_spec tw fr a0 dsm st name sh formats sm
      (some a0) (Or.inl rfl)).2.2.2.2.2
    cases formats with
    | nil => simp [h]
    | cons fmt rest => simp [h]

/-- C2: `export_latex` resizes the figure before saving so that its width in
inches is `_pt_to_in TEXTWIDTH_PT * fraction` and its height is that width
times the aspect; when `aspect` is `None` and the current width is positive,
the same holds with aspect `h / w`, so the height/width ratio is preserved
(whenever the new width is nonzero, i.e. the ratio is defined). -/
theorem export_latex_resizes (tw fr a : ℚ) (dsm : Option SideMargin) (st : ExportState)
    (name : String) (sh : Bool) (formats : List String) (sm : Option SideMargin)
    (asp : Option ℚ)
    (ha : asp = some a ∨ (asp = none ∧ 0 < st.fig_w ∧ a = st.fig_h / st.fig_w)) :
    ((export_latex tw dsm st name fr asp sh formats sm).1.fig_w = _pt_to_in tw * fr) ∧
    ((export_latex tw dsm st name fr asp sh formats sm).1.fig_h = _pt_to_in tw * fr * a) ∧
    (_pt_to_in tw * fr ≠ 0 →
      (export_latex tw dsm st name fr asp sh formats sm).1.fig_h /
        (export_latex tw dsm st name fr asp sh formats sm).1.fig_w = a) := by
  have h := export_latex_ok_spec tw fr a dsm st name sh formats sm asp ha
  refine ⟨h.1, h.2.1, fun hW => ?_⟩
  rw [h.1, h.2.1]
  exact mul_div_cancel_left₀ a hW

/-- C2 witness: a concrete run with `aspect = None`, figure size 2 × 3 inches,
textwidth 72.27 pt (one inch) and fraction 1/2. -/
theorem export_latex_resizes_witness :
    ((export_latex (7227/100) none ⟨2, 3, none, 0, [], [], false, false⟩ "fig" (1/2) none
        true ["pgf"] none).1.fig_w = _pt_to_in (7227/100) * (1/2)) ∧
    ((export_latex (7227/100) none ⟨2, 3, none, 0, [], [], false, false⟩ "fig" (1/2) none
        true ["pgf"] none).1.fig_h = _pt_to_in (7227/100) * (1/2) * (3/2)) ∧
    (_pt_to_in (7227/100) * (1/2) ≠ 0 →
      (export_latex (7227/100) none ⟨2, 3, none, 0, [], [], false, false⟩ "fig" (1/2) none
          true ["pgf"] none).1.fig_h /
        (export_latex (7227/100) none ⟨2, 3, none, 0, [], [], false, false⟩ "fig" (1/2) none
            true ["pgf"] none).1.fig_w = 3/2) :=
  export_latex_resizes (7227/100) (1/2) (3/2) none ⟨2, 3, none, 0, [], [], false, false⟩
    "fig" true ["pgf"] none none (Or.inr ⟨rfl, by norm_num, by norm_num⟩)

/-- C3: for a non-empty `formats` iterable (and a call that passes the aspect
check), `export_latex` saves exactly one file per requested format, in order,
each at `name` with suffix `".<fmt>"`, creates each file's parent directory,
and returns the path of the first file saved. -/
theorem export_latex_saves_all_formats (tw fr : ℚ) (dsm : Option SideMargin)
    (st : ExportState) (name : String) (sh : Bool) (formats : List String)
    (sm : Option SideMargin) (asp : Option ℚ)
    (hasp : asp ≠ none ∨ 0 < st.fig_w) (hne : formats ≠ []) :
    ((export_latex tw dsm st name fr asp sh formats sm).1.saved =
      st.saved ++ formats.map (fun fmt => with_suffix name ("." ++ fmt))) ∧
    ((export_latex tw dsm st name fr asp sh formats sm).1.mkdirs =
      st.mkdirs ++ formats.map (fun fmt => path_parent (with_suffix name ("." ++ fmt)))) ∧
    ((export_latex tw dsm st name fr asp sh formats sm).2 =
      Except.ok (with_suffix name ("." ++ formats.headD ""))) := by
  have key : ∃ a, asp = some a ∨ (asp = none ∧ 0 < st.fig_w ∧ a = st.fig_h / st.fig_w) := by
    rcases h : asp with _ | a0
    · rcases hasp with hc | hpos
      · exact absurd rfl (h ▸ hc)
      · exact ⟨st.fig_h / st.fig_w, Or.inr ⟨rfl, hpos, rfl⟩⟩
    · exact ⟨a0, Or.inl rfl⟩
  obtain ⟨a, ha⟩ := key
  have h := export_latex_ok_spec tw fr a dsm st name sh formats sm asp ha
  refine ⟨h.2.2.2.1, h.2.2.2.2.1, ?_⟩
  rw [h.2.2.2.2.2]
  cases formats with
  | nil => exact absurd rfl hne
  | cons fmt rest => rfl

/-- C3 witness: a concrete export of two formats. -/
theorem export_latex_saves_all_formats_witness :
    ((export_latex 345 none ⟨2, 3, none, 0, [], [], false, false⟩ "figures/example" 1
        (some 1) true ["pgf", "pdf"] none).1.saved =
      [] ++ ["pgf", "pdf"].map (fun fmt => with_suffix "figures/example" ("." ++ fmt))) ∧
    ((export_latex 345 none ⟨2, 3, none, 0, [], [], false, false⟩ "figures/example" 1
        (some 1) true ["pgf", "pdf"] none).1.mkdirs =
      [] ++ ["pgf", "pdf"].map (fun fmt => path_parent (with_suffix "figures/example" ("." ++ fmt)))) ∧
    ((export_latex 345 none ⟨2, 3, none, 0, [], [], false, false⟩ "figures/example" 1
        (some 1) true ["pgf", "pdf"] none).2 =
      Except.ok (with_suffix "figures/example" ("." ++ ["pgf", "pdf"].headD ""))) :=
  export_latex_saves_all_formats 345 1 none ⟨2, 3, none, 0, [], [], false, false⟩
    "figures/example" true ["pgf", "pdf"] none (some 1) (Or.inl (by simp)) (by simp)

/-- C10: with an empty `formats` iterable (and an explicit aspect), no file is
saved and the call fails at the assertion; the assertion `first_path is not
None` succeeds exactly when `formats` is non-empty; and on this failure the
figure has already been resized and drawn, so its state has changed even
though the export fails. -/
theorem export_latex_empty_formats (tw fr a : ℚ) (dsm : Option SideMargin)
    (st : ExportState) (name : String) (sh : Bool) (sm : Option SideMargin) :
    ((export_latex tw dsm st name fr (some a) sh [] sm).2 = Except.error assert_error_msg) ∧
    ((export_latex tw dsm st name fr (some a) sh [] sm).1.saved = st.saved) ∧
    ((export_latex tw dsm st name fr (some a) sh [] sm).1.fig_w = _pt_to_in tw * fr) ∧
    ((export_latex tw dsm st name fr (some a) sh [] sm).1.fig_h = _pt_to_in tw * fr * a) ∧
    ((export_latex tw dsm st name fr (some a) sh [] sm).1.draws = st.draws + 1) ∧
    (∀ formats : List String,
      (∃ p, (_save_all name formats st).2 = Except.ok p) ↔ formats ≠ []) := by
  have h := export_latex_ok_spec tw fr a dsm st name sh [] sm (some a) (Or.inl rfl)
  refine ⟨h.2.2.2.2.2, by simpa using h.2.2.2.1, h.1, h.2.1, h.2.2.1, ?_⟩
  intro formats
  rw [_save_all_snd]
  cases formats with
  | nil => simp
  | cons fmt rest => simp

/-- Computation of `map_points` on the success path, shared by the theorems
below: with the four extrema available and both denominators nonzero, the
result is the interpolation formula mapped over the zipped samples. -/
theorem map_points_eq (xs ys : List ℚ) (width height left right top bottom : ℤ)
    (y_padding : ℚ) (x_min x_max y_min0 y_max0 : ℚ)
    (hxm : xs.min? = some x_min) (hxM : xs.max? = some x_max)
    (hym : ys.min? = some y_min0) (hyM : ys.max? = some y_max0)
    (hdx : x_max - x_min ≠ 0)
    (hdy : y_max0 + (y_max0 - y_min0) * y_padding -
      (y_min0 - (y_max0 - y_min0) * y_padding) ≠ 0) :
    map_points xs ys width height left right top bottom y_padding =
      some ((xs.zip ys).map (fun p =>
        ((left : ℚ) + (p.1 - x_min) / (x_max - x_min) *
          ((width : ℚ) - (left : ℚ) - (right : ℚ)),
         (height : ℚ) - (bottom : ℚ) -
          (p.2 - (y_min0 - (y_max0 - y_min0) * y_padding)) /
            (y_max0 + (y_max0 - y_min0) * y_padding -
              (y_min0 - (y_max0 - y_min0) * y_padding)) *
            ((height : ℚ) - (top : ℚ) - (bottom : ℚ))))) := by
  have hcond : ¬(x_max - x_min = 0 ∨
      y_max0 + (y_max0 - y_min0) * y_padding -
        (y_min0 - (y_max0 - y_min0) * y_padding) = 0) := by
    rintro (h | h)
    · exact hdx h
    · exact hdy h
  simp only [map_points, hxm, hxM, hym, hyM]
  rw [if_neg hcond]

/-- C4: `map_points` maps each sample pair by linear interpolation — the x
pixel is `left + (x - min xs) / (max xs - min xs) * (width - left - right)`
and the y pixel is `height - bottom - (y - yl) / (yh - yl) *
(height - top - bottom)` with the padded extrema `yl`, `yh`; in particular a
sample at the minimal x maps to pixel `left` and one at the maximal x maps to
`width - right`. -/
theorem map_points_formula (xs ys : List ℚ) (width height left right top bottom : ℤ)
    (y_padding : ℚ) (x_min x_max y_min0 y_max0 : ℚ)
    (hxm : xs.min? = some x_min) (hxM : xs.max? = some x_max)
    (hym : ys.min? = some y_min0) (hyM : ys.max? = some y_max0)
    (hdx : x_max - x_min ≠ 0)
    (hdy : y_max0 + (y_max0 - y_min0) * y_padding -
      (y_min0 - (y_max0 - y_min0) * y_padding) ≠ 0) :
    (map_points xs ys width height left right top bottom y_padding =
      some ((xs.zip ys).map (fun p =>
        ((left : ℚ) + (p.1 - x_min) / (x_max - x_min) *
          ((width : ℚ) - (left : ℚ) - (right : ℚ)),
         (height : ℚ) - (bottom : ℚ) -
          (p.2 - (y_min0 - (y_max0 - y_min0) * y_padding)) /
            (y_max0 + (y_max0 - y_min0) * y_padding -
              (y_min0 - (y_max0 - y_min0) * y_padding)) *
            ((height : ℚ) - (top : ℚ) - (bottom : ℚ)))))) ∧
    (∀ p ∈ xs.zip ys,
      (p.1 = x_min →
        (left : ℚ) + (p.1 - x_min) / (x_max - x_min) *
          ((width : ℚ) - (left : ℚ) - (right : ℚ)) = (left : ℚ)) ∧
      (p.1 = x_max →
        (left : ℚ) + (p.1 - x_min) / (x_max - x_min) *
          ((width : ℚ) - (left : ℚ) - (right : ℚ)) = (width : ℚ) - (right : ℚ))) := by
  refine ⟨map_points_eq xs ys width height left right top bottom y_padding
    x_min x_max y_min0 y_max0 hxm hxM hym hyM hdx hdy, ?_⟩
  intro p _
  constructor
  · intro h
    rw [h, sub_self, zero_div, zero_mul, add_zero]
  · intro h
    rw [h, div_self hdx, one_mul]
    ring

/-- C4 witness: a concrete two-sample call. -/
theorem map_points_formula_witness :
    (map_points [0, 2] [1, 3] 10 10 1 1 1 1 (5/100) =
      some (([0, 2].zip [1, 3]).map (fun p =>
        (((1 : ℤ) : ℚ) + (p.1 - 0) / (2 - 0) *
          (((10 : ℤ) : ℚ) - ((1 : ℤ) : ℚ) - ((1 : ℤ) : ℚ)),
         ((10 : ℤ) : ℚ) - ((1 : ℤ) : ℚ) -
          (p.2 - (1 - (3 - 1) * (5/100))) /
            (3 + (3 - 1) * (5/100) - (1 - (3 - 1) * (5/100))) *
            (((10 : ℤ) : ℚ) - ((1 : ℤ) : ℚ) - ((1 : ℤ) : ℚ)))))) ∧
    (∀ p ∈ ([0, 2] : List ℚ).zip ([1, 3] : List ℚ),
      (p.1 = 0 →
        ((1 : ℤ) : ℚ) + (p.1 - 0) / (2 - 0) *
          (((10 : ℤ) : ℚ) - ((1 : ℤ) : ℚ) - ((1 : ℤ) : ℚ)) = ((1 : ℤ) : ℚ)) ∧
      (p.1 = 2 →
        ((1 : ℤ) : ℚ) + (p.1 - 0) / (2 - 0) *
          (((10 : ℤ) : ℚ) - ((1 : ℤ) : ℚ) - ((1 : ℤ) : ℚ)) = ((10 : ℤ) : ℚ) - ((1 : ℤ) : ℚ))) :=
  by
  exact map_points_formula [0, 2] [1, 3] 10 10 1 1 1 1 (5/100) 0 2 1 3
    (by decide) (by decide) (by decide) (by decide) (by norm_num) (by norm_num)

/-- C5: with at least two distinct x samples, at least two distinct y samples,
`left + right < width`, `top + bottom < height` and the default
`y_padding = 0.05`, every returned point lies inside the plot rectangle, the
y coordinates strictly so because of the padding. -/
theorem map_points_in_bounds (xs ys : List ℚ) (width height left right top bottom : ℤ)
    (a b : ℚ) (ha : a ∈ xs) (hb : b ∈ xs) (hab : a ≠ b)
    (c d : ℚ) (hc : c ∈ ys) (hd : d ∈ ys) (hcd : c ≠ d)
    (hw : left + right < width) (hh : top + bottom < height) :
    ∃ res, map_points xs ys width height left right top bottom (5/100) = some res ∧
      ∀ p ∈ res, (left : ℚ) ≤ p.1 ∧ p.1 ≤ (width : ℚ) - (right : ℚ) ∧
        (top : ℚ) < p.2 ∧ p.2 < (height : ℚ) - (bottom : ℚ) := by
  obtain ⟨x_min, hxm⟩ := min?_isSome_of_ne_nil
    (l := xs) (by rintro rfl; exact (List.not_mem_nil a) ha)
  obtain ⟨x_max, hxM⟩ := max?_isSome_of_ne_nil
    (l := xs) (by rintro rfl; exact (List.not_mem_nil a) ha)
  obtain ⟨y_min0, hym⟩ := min?_isSome_of_ne_nil
    (l := ys) (by rintro rfl; exact (List.not_mem_nil c) hc)
  obtain ⟨y_max0, hyM⟩ := max?_isSome_of_ne_nil
    (l := ys) (by rintro rfl; exact (List.not_mem_nil c) hc)
  have hxlt : x_min < x_max := by
    by_contra hcon
    push_neg at hcon
    have hA : x_min = a := le_antisymm (min?_le_of_mem hxm ha)
      (le_trans (le_max?_of_mem hxM ha) hcon)
    have hB : x_min = b := le_antisymm (min?_le_of_mem hxm hb)
      (le_trans (le_max?_of_mem hxM hb) hcon)
    exact hab (hA.symm.trans hB)
  have hylt : y_min0 < y_max0 := by
    by_contra hcon
    push_neg at hcon
    have hA : y_min0 = c := le_antisymm (min?_le_of_mem hym hc)
      (le_trans (le_max?_of_mem hyM hc) hcon)
    have hB : y_min0 = d := le_antisymm (min?_le_of_mem hym hd)
      (le_trans (le_max?_of_mem hyM hd) hcon)
    exact hcd (hA.symm.trans hB)
  have hs : 0 < y_max0 - y_min0 := sub_pos.mpr hylt
  have hxd : 0 < x_max - x_min := sub_pos.mpr hxlt
  have hyd : 0 < y_max0 + (y_max0 - y_min0) * (5/100) -
      (y_min0 - (y_max0 - y_min0) * (5/100)) := by linarith
  have hwq : (left : ℚ) + (right : ℚ) < (width : ℚ) := by exact_mod_cast hw
  have hhq : (top : ℚ) + (bottom : ℚ) < (height : ℚ) := by exact_mod_cast hh
  have hpw : 0 < (width : ℚ) - (left : ℚ) - (right : ℚ) := by linarith
  have hph : 0 < (height : ℚ) - (top : ℚ) - (bottom : ℚ) := by linarith
  refine ⟨_, map_points_eq xs ys width height left right top bottom (5/100)
    x_min x_max y_min0 y_max0 hxm hxM hym hyM (ne_of_gt hxd) (ne_of_gt hyd), ?_⟩
  intro p hp
  obtain ⟨q, hq, rfl⟩ := List.mem_map.mp hp
  obtain ⟨hq1, hq2⟩ := List.of_mem_zip hq
  have hx1 : x_min ≤ q.1 := min?_le_of_mem hxm hq1
  have hx2 : q.1 ≤ x_max := le_max?_of_mem hxM hq1
  have hy1 : y_min0 ≤ q.2 := min?_le_of_mem hym hq2
  have hy2 : q.2 ≤ y_max0 := le_max?_of_mem hyM hq2
  have hxn0 : 0 ≤ (q.1 - x_min) / (x_max - x_min) :=
    div_nonneg (by linarith) (le_of_lt hxd)
  have hxn1 : (q.1 - x_min) / (x_max - x_min) ≤ 1 :=
    (div_le_one hxd).mpr (by linarith)
  have hyn0 : 0 < (q.2 - (y_min0 - (y_max0 - y_min0) * (5/100))) /
      (y_max0 + (y_max0 - y_min0) * (5/100) - (y_min0 - (y_max0 - y_min0) * (5/100))) :=
    div_pos (by linarith) hyd
  have hyn1 : (q.2 - (y_min0 - (y_max0 - y_min0) * (5/100))) /
      (y_max0 + (y_max0 - y_min0) * (5/100) - (y_min0 - (y_max0 - y_min0) * (5/100))) < 1 :=
    (div_lt_one hyd).mpr (by linarith)
  have hx3 := mul_nonneg hxn0 (le_of_lt hpw)
  have hx4 := mul_le_of_le_one_left (le_of_lt hpw) hxn1
  have hy3 := mul_pos hyn0 hph
  have hy4 := mul_lt_of_lt_one_left hph hyn1
  refine ⟨by linarith, by linarith, by linarith, by linarith⟩

/-- C5 witness: a concrete two-sample call with unit margins in a 10 by 10
canvas. -/
theorem map_points_in_bounds_witness :
    ∃ res, map_points [0, 2] [1, 3] 10 10 1 1 1 1 (5/100) = some res ∧
      ∀ p ∈ res, ((1 : ℤ) : ℚ) ≤ p.1 ∧ p.1 ≤ ((10 : ℤ) : ℚ) - ((1 : ℤ) : ℚ) ∧
        ((1 : ℤ) : ℚ) < p.2 ∧ p.2 < ((10 : ℤ) : ℚ) - ((1 : ℤ) : ℚ) := by
  exact map_points_in_bounds [0, 2] [1, 3] 10 10 1 1 1 1 0 2 (by decide) (by decide)
    (by norm_num) 1 3 (by decide) (by decide) (by norm_num) (by decide) (by decide)

/-- C9: `map_points` fails at constant inputs — when all x values are equal,
or all y values are equal (so the padded y range is empty), the normalisation
divides by zero and the call fails; there is no guard in the code, so together
with the success shown under the two-distinct-values precondition, totality
holds only under that precondition. -/
theorem map_points_none_of_constant (xs ys : List ℚ)
    (width height left right top bottom : ℤ) (y_padding : ℚ)
    (hxs : xs ≠ []) (hys : ys ≠ [])
    (h : (∀ u ∈ xs, ∀ v ∈ xs, u = v) ∨ (∀ u ∈ ys, ∀ v ∈ ys, u = v)) :
    map_points xs ys width height left right top bottom y_padding = none := by
  obtain ⟨x_min, hxm⟩ := min?_isSome_of_ne_nil hxs
  obtain ⟨x_max, hxM⟩ := max?_isSome_of_ne_nil hxs
  obtain ⟨y_min0, hym⟩ := min?_isSome_of_ne_nil hys
  obtain ⟨y_max0, hyM⟩ := max?_isSome_of_ne_nil hys
  have hcond : x_max - x_min = 0 ∨
      y_max0 + (y_max0 - y_min0) * y_padding -
        (y_min0 - (y_max0 - y_min0) * y_padding) = 0 := by
    rcases h with h | h
    · left
      rw [h x_max (mem_of_max?_eq_some hxM) x_min (mem_of_min?_eq_some hxm)]
      ring
    · right
      rw [h y_max0 (mem_of_max?_eq_some hyM) y_min0 (mem_of_min?_eq_some hym)]
      ring
  simp only [map_points, hxm, hxM, hym, hyM]
  rw [if_pos hcond]

/-- C9 witness: constant x samples make the call fail. -/
theorem map_points_none_of_constant_witness :
    map_points [1, 1] [0, 1] 900 600 84 44 86 96 (5/100) = none :=
  map_points_none_of_constant [1, 1] [0, 1] 900 600 84 44 86 96 (5/100)
    (by decide) (by decide) (Or.inl (by decide))

/-- C8: for `samples ≥ 2`, `compute_data` returns two lists of length
`samples`; the x values are evenly spaced, `x_i = i * (2 * pi) / (samples - 1)`
(so the first is `0` and the last is `2 * pi`), and each `y_i` is
`sin (x_i ^ 2)`. -/
theorem compute_data_spec (sin : ℚ → ℚ) (pi : ℚ) (samples : ℕ) (h2 : 2 ≤ samples) :
    ((compute_data sin pi samples).1.length = samples) ∧
    ((compute_data sin pi samples).2.length = samples) ∧
    (∀ i, i < samples →
      (compute_data sin pi samples).1.getD i 0 =
        (i : ℚ) * (2 * pi) / ((samples : ℚ) - 1) ∧
      (compute_data sin pi samples).2.getD i 0 =
        sin (((compute_data sin pi samples).1.getD i 0) ^ 2)) ∧
    ((compute_data sin pi samples).1.getD 0 0 = 0) ∧
    ((compute_data sin pi samples).1.getD (samples - 1) 0 = 2 * pi) := by
  have hget : ∀ i, i < samples →
      (compute_data sin pi samples).1.getD i 0 =
        (i : ℚ) * (2 * pi) / ((samples : ℚ) - 1) := by
    intro i hi
    simp only [compute_data, List.getD_eq_getElem?_getD, List.getElem?_map,
      List.getElem?_range hi, Option.map_some, Option.getD_some]
    rfl
  have hne : (samples : ℚ) - 1 ≠ 0 := by
    have hs2 : (2 : ℚ) ≤ (samples : ℚ) := by exact_mod_cast h2
    intro hz
    rw [sub_eq_zero] at hz
    rw [hz] at hs2
    norm_num at hs2
  refine ⟨by simp only [compute_data, List.length_map, List.length_range],
    by simp only [compute_data, List.length_map, List.length_range],
    fun i hi => ⟨hget i hi, ?_⟩, ?_, ?_⟩
  · simp only [compute_data, List.getD_eq_getElem?_getD, List.getElem?_map,
      List.getElem?_range hi, Option.map_some, Option.getD_some]
    rfl
  · rw [hget 0 (by omega)]
    simp
  · rw [hget (samples - 1) (by omega)]
    rw [Nat.cast_sub (by omega), Nat.cast_one, mul_comm]
    exact mul_div_cancel_right₀ _ hne

/-- C8 witness: a three-sample run with a placeholder sine function. -/
theorem compute_data_spec_witness :
    ((compute_data (fun x => x + 1) 3 3).1.length = 3) ∧
    ((compute_data (fun x => x + 1) 3 3).2.length = 3) ∧
    (∀ i, i < 3 →
      (compute_data (fun x => x + 1) 3 3).1.getD i 0 =
        (i : ℚ) * (2 * 3) / (((3 : ℕ) : ℚ) - 1) ∧
      (compute_data (fun x => x + 1) 3 3).2.getD i 0 =
        (fun x => x + 1) (((compute_data (fun x => x + 1) 3 3).1.getD i 0) ^ 2)) ∧
    ((compute_data (fun x => x + 1) 3 3).1.getD 0 0 = 0) ∧
    ((compute_data (fun x => x + 1) 3 3).1.getD (3 - 1) 0 = 2 * 3) :=
  compute_data_spec (fun x => x + 1) 3 3 (by norm_num)
